import Mathlib

/-!
Verification of the Edit-Mouse interception-and-resolution engine
(src/src-tauri/src/main.rs) against its natural-language specification.

The Rust source is shallowly embedded: `HashMap` becomes an association
list with `List.lookup`, `HashSet` becomes a `List String` queried with
`List.contains`, `Mutex` becomes a value paired with a poison flag whose
`lock` yields `Option`, and the fallible Rust functions return `Except
String`.  Machine integers (`i64` button numbers) are modelled as `Int`.
-/

namespace EditMouse

/-- Action enumeration from main.rs (`enum Action`). -/
inductive Action where
  | Default
  | Disabled
  | Back
  | Forward
  | MiddleClick
  | DoubleClick
deriving DecidableEq, Repr

/-- Embedding of `Action::from` (main.rs lines 474-485): total mapping from
configured action strings to `Action`, folding unrecognized strings to
`Default`. -/
def Action.fromString (value : String) : Action :=
  if value = "Disabled" then Action.Disabled
  else if value = "Back" then Action.Back
  else if value = "Forward" then Action.Forward
  else if value = "Middle Click" then Action.MiddleClick
  else if value = "Double Click" then Action.DoubleClick
  else Action.Default

/-- Modelled from the spec: the canonical configuration string of each
`Action` variant.  The Rust source under src/ contains only the
string-to-action direction (`Action::from`); the action-to-string direction
lives in the excluded UI layer, so it is reconstructed here from the six
canonical strings the spec names. -/
def Action.canonicalString : Action → String
  | Action.Default => "Default"
  | Action.Disabled => "Disabled"
  | Action.Back => "Back"
  | Action.Forward => "Forward"
  | Action.MiddleClick => "Middle Click"
  | Action.DoubleClick => "Double Click"

/-- Embedding of `default_buttons` (main.rs lines 12-20): the five fixed
slots, each mapped to the string "Default".  `HashMap` is modelled as an
association list. -/
def default_buttons : List (String × String) :=
  [("left", "Default"), ("right", "Default"), ("middle", "Default"),
   ("button4", "Default"), ("button5", "Default")]

/-- Embedding of `struct DeviceConfig` (main.rs lines 22-27). -/
structure DeviceConfig where
  name : String
  buttons : List (String × String)
deriving DecidableEq, Repr

/-- Embedding of `impl Default for DeviceConfig` (main.rs lines 29-36). -/
def DeviceConfig.defaultValue : DeviceConfig :=
  { name := "", buttons := default_buttons }

/-- Embedding of `struct Settings` (main.rs lines 38-45).  `devices` is the
`HashMap<String, DeviceConfig>` as an association list. -/
structure Settings where
  theme : String
  startup : Bool
  selected_device : Option String
  devices : List (String × DeviceConfig)
deriving DecidableEq, Repr

/-- Embedding of `impl Default for Settings` (main.rs lines 47-56). -/
def Settings.defaultValue : Settings :=
  { theme := "system", startup := false, selected_device := none,
    devices := [] }

/-- Model of `std::sync::Mutex<T>`: the held value together with a poison
flag; `lock` fails exactly when the mutex is poisoned. -/
structure MutexCell (α : Type) where
  value : α
  poisoned : Bool
deriving Repr

/-- Locking a mutex: `Ok(guard)` becomes `some value`, a poisoned lock
becomes `none`. -/
def MutexCell.lock {α : Type} (m : MutexCell α) : Option α :=
  if m.poisoned then none else some m.value

/-- Embedding of `struct AppState` (main.rs lines 64-68): the settings
store and the device registry (a `HashSet<String>` as a `List String`). -/
structure AppState where
  settings : MutexCell Settings
  devices : MutexCell (List String)

/-- Embedding of `AppState::update_settings` (main.rs lines 71-75): the
value is replaced only when the lock succeeds. -/
def AppState.update_settings (st : AppState) (s : Settings) : AppState :=
  match st.settings.lock with
  | some _ => { st with settings := { st.settings with value := s } }
  | none => st

/-- Embedding of `AppState::snapshot_settings` (main.rs lines 87-92):
clone the held settings, or `Settings::default()` when the lock is
poisoned (`unwrap_or_default`). -/
def AppState.snapshot_settings (st : AppState) : Settings :=
  (st.settings.lock).getD Settings.defaultValue

/-- Embedding of `AppState::is_selected_device_available` (main.rs lines
94-99): membership in the registry, or `false` when the lock is poisoned
(`unwrap_or(false)`). -/
def AppState.is_selected_device_available (st : AppState) (device_id : String) : Bool :=
  ((st.devices.lock).map (fun guard => guard.contains device_id)).getD false

/-- Embedding of the `match button` slot table inside `resolve_action`
(main.rs lines 408-415): buttons 0-4 map to their slot names, everything
else has no slot. -/
def button_key (button : Int) : Option String :=
  if button = 0 then some "left"
  else if button = 1 then some "right"
  else if button = 2 then some "middle"
  else if button = 3 then some "button4"
  else if button = 4 then some "button5"
  else none

/-- Embedding of `resolve_action` (main.rs lines 396-418). -/
def resolve_action (state : AppState) (button : Int) : Action :=
  let settings := state.snapshot_settings
  match settings.selected_device with
  | none => Action.Default
  | some selected =>
    if state.is_selected_device_available selected = false then Action.Default
    else
      match settings.devices.lookup selected with
      | none => Action.Default
      | some device =>
        match button_key button with
        | none => Action.Default
        | some key =>
          Action.fromString ((device.buttons.lookup key).getD "Default")

/-- Event kinds the tap registers for (main.rs lines 335-342). -/
inductive EventType where
  | LeftMouseDown
  | LeftMouseUp
  | RightMouseDown
  | RightMouseUp
  | OtherMouseDown
  | OtherMouseUp
deriving DecidableEq, Repr

/-- The `matches!(event_type, ...Down)` test in the callback (main.rs lines
351-356). -/
def EventType.isDown : EventType → Bool
  | EventType.LeftMouseDown => true
  | EventType.RightMouseDown => true
  | EventType.OtherMouseDown => true
  | _ => false

/-- A mouse event as the callback observes it: its button-number field and
its cursor location. -/
structure CGEvent where
  button : Int
  location : Int × Int
deriving DecidableEq, Repr

/-- Keycode constant from main.rs line 322. -/
def KEYCODE_LEFT_BRACKET : Nat := 0x21

/-- Keycode constant from main.rs line 323. -/
def KEYCODE_RIGHT_BRACKET : Nat := 0x1E

/-- A synthetic event posted by the synthesizer, recording exactly what is
sent to the OS. -/
inductive Posted where
  | keyDown (keycode : Nat)
  | keyUp (keycode : Nat)
  | mouseDown (button : Int) (location : Int × Int)
  | mouseUp (button : Int) (location : Int × Int)
deriving DecidableEq, Repr

/-- Embedding of `post_key_combo` (main.rs lines 420-429): a key-down then
key-up pair for the given keycode. -/
def post_key_combo (keycode : Nat) : List Posted :=
  [Posted.keyDown keycode, Posted.keyUp keycode]

/-- Embedding of `post_mouse_click` (main.rs lines 431-458): one or two
down/up pairs at the original event's location, tagged with the logical
button number. -/
def post_mouse_click (event : CGEvent) (button : Int) (double : Bool) : List Posted :=
  let clicks := if double then 2 else 1
  (List.range clicks).flatMap
    (fun _ => [Posted.mouseDown button event.location,
               Posted.mouseUp button event.location])

/-- Embedding of the event-tap callback closure (main.rs lines 343-376):
given the shared state, the event type and the event, return the event
forwarded to the OS (`none` means suppression) together with the list of
synthetic events posted. -/
def tap_callback (state : AppState) (event_type : EventType) (event : CGEvent) :
    Option CGEvent × List Posted :=
  let button := event.button
  let action := resolve_action state button
  if action = Action.Default then (some event, [])
  else if event_type.isDown then
    let posted :=
      match action with
      | Action.Disabled => []
      | Action.Back => post_key_combo KEYCODE_LEFT_BRACKET
      | Action.Forward => post_key_combo KEYCODE_RIGHT_BRACKET
      | Action.MiddleClick => post_mouse_click event 2 false
      | Action.DoubleClick => post_mouse_click event 0 true
      | Action.Default => []
    (none, posted)
  else (none, [])

/-- Embedding of `load_settings` (main.rs lines 111-118).  The file system
and the serde JSON parser are external collaborators, so they enter as
parameters: `fileExists` is `path.exists()`, `data` the file contents, and
`parse` the result of `serde_json::from_str` on a given string.  A missing
file yields `Ok(Settings::default())`; otherwise the parse result (success
or error) is returned as is. -/
def load_settings (fileExists : Bool) (data : String)
    (parse : String → Except String Settings) : Except String Settings :=
  if fileExists = false then Except.ok Settings.defaultValue
  else parse data

/-- Embedding of the `save_settings` command (main.rs lines 302-311):
persist first (`persist_settings(&app, settings.clone())?`), and only on
success replace the in-memory store (`state.update_settings(settings)`).
The disk write is the external parameter `persist`. -/
def save_settings (persist : Settings → Except String Unit)
    (state : AppState) (settings : Settings) : Except String Unit × AppState :=
  match persist settings with
  | Except.error e => (Except.error e, state)
  | Except.ok _ => (Except.ok (), state.update_settings settings)

/-! Concrete example values used by witness theorems. -/

/-- Device configuration of the spec's Scenario A: the right slot remapped
to "Back", all other slots left at "Default". -/
def cfgA : DeviceConfig :=
  { name := "Example Mouse",
    buttons := [("left", "Default"), ("right", "Back"), ("middle", "Default"),
                ("button4", "Default"), ("button5", "Default")] }

/-- Settings of Scenario A: device "04f2:0112:ABC" selected and configured. -/
def settingsA : Settings :=
  { theme := "system", startup := false,
    selected_device := some "04f2:0112:ABC",
    devices := [("04f2:0112:ABC", cfgA)] }

/-- Scenario A app state: settings as above, device present in the
registry, no poisoning. -/
def stateA : AppState :=
  { settings := { value := settingsA, poisoned := false },
    devices := { value := ["04f2:0112:ABC"], poisoned := false } }

/-- App state with the same settings but an empty device registry: the
selected device is configured yet unplugged. -/
def stateB : AppState :=
  { settings := { value := settingsA, poisoned := false },
    devices := { value := [], poisoned := false } }

/-- App state holding the default settings (no device selected). -/
def state0 : AppState :=
  { settings := { value := Settings.defaultValue, poisoned := false },
    devices := { value := [], poisoned := false } }

/-- App state whose two mutexes are both poisoned. -/
def statePoisoned : AppState :=
  { settings := { value := settingsA, poisoned := true },
    devices := { value := ["04f2:0112:ABC"], poisoned := true } }

/-- Scenario A event: a press of physical button 1 (the right button). -/
def eventA : CGEvent := { button := 1, location := (100, 200) }

/-- An event on button 0 with the default state: an untouched click. -/
def event0 : CGEvent := { button := 0, location := (3, 4) }

/-! Helper lemmas shared between claims. -/

/-- Buttons at or above 5 have no slot. -/
theorem button_key_none_of_ge (button : Int) (h : 5 ≤ button) :
    button_key button = none := by
  unfold button_key
  rw [if_neg (by omega), if_neg (by omega), if_neg (by omega),
      if_neg (by omega), if_neg (by omega)]

/-- Negative buttons have no slot. -/
theorem button_key_none_of_neg (button : Int) (h : button < 0) :
    button_key button = none := by
  unfold button_key
  rw [if_neg (by omega), if_neg (by omega), if_neg (by omega),
      if_neg (by omega), if_neg (by omega)]

/-- When the button has no slot, `resolve_action` returns `Default`
whatever the state holds. -/
theorem resolve_action_of_key_none (st : AppState) (button : Int)
    (h : button_key button = none) :
    resolve_action st button = Action.Default := by
  unfold resolve_action
  cases hsel : st.snapshot_settings.selected_device with
  | none => simp [hsel]
  | some selected =>
    simp only [hsel]
    by_cases hav : st.is_selected_device_available selected = false
    · simp [hav]
    · cases hdev : st.snapshot_settings.devices.lookup selected with
      | none => simp [hav, hdev]
      | some device => simp [hav, hdev, h]

/-! Claim theorems. -/

/-- C1: for every state and button, if the selected device id is either
missing from `settings.devices` or not available in the registry snapshot,
`resolve_action` returns `Default`, whatever the button's slot is mapped
to. -/
theorem resolve_action_default_of_unavailable_or_unconfigured
    (st : AppState) (button : Int) (sel : String)
    (hsel : st.snapshot_settings.selected_device = some sel)
    (h : st.is_selected_device_available sel = false ∨
         st.snapshot_settings.devices.lookup sel = none) :
    resolve_action st button = Action.Default := by
  unfold resolve_action
  simp only [hsel]
  rcases h with h | h
  · simp [h]
  · by_cases hav : st.is_selected_device_available sel = false
    · simp [hav]
    · simp [hav, h]

/-- C1 witness: with Scenario A settings but an empty registry, button 1
resolves to `Default` even though its slot is configured as "Back". -/
theorem resolve_action_default_of_unavailable_witness :
    stateB.snapshot_settings.selected_device = some "04f2:0112:ABC" ∧
    stateB.is_selected_device_available "04f2:0112:ABC" = false ∧
    resolve_action stateB 1 = Action.Default :=
  ⟨rfl, rfl,
   resolve_action_default_of_unavailable_or_unconfigured stateB 1 "04f2:0112:ABC"
     rfl (Or.inl rfl)⟩

/-- C3: whenever `selected_device` is `None`, `resolve_action` returns
`Default` for every button, whatever `devices` and the registry hold. -/
theorem resolve_action_default_of_no_selection (st : AppState) (button : Int)
    (h : st.snapshot_settings.selected_device = none) :
    resolve_action st button = Action.Default := by
  unfold resolve_action
  simp [h]

/-- C3 witness: the default settings select no device, and button 0
resolves to `Default`. -/
theorem resolve_action_default_of_no_selection_witness :
    state0.snapshot_settings.selected_device = none ∧
    resolve_action state0 0 = Action.Default :=
  ⟨rfl, resolve_action_default_of_no_selection state0 0 rfl⟩

/-- C4: every button number at or above 5 resolves to `Default`, whatever
the settings and registry hold. -/
theorem resolve_action_default_of_button_ge_five (st : AppState) (button : Int)
    (h : 5 ≤ button) :
    resolve_action st button = Action.Default :=
  resolve_action_of_key_none st button (button_key_none_of_ge button h)

/-- C4 witness: in the fully remap-enabled Scenario A state, button 7
still resolves to `Default`. -/
theorem resolve_action_default_of_button_ge_five_witness :
    (5 : Int) ≤ 7 ∧ resolve_action stateA 7 = Action.Default :=
  ⟨by omega, resolve_action_default_of_button_ge_five stateA 7 (by omega)⟩

/-- C10: every negative button number resolves to `Default`, whatever the
settings and registry hold: the slot table treats everything outside 0-4
as slotless. -/
theorem resolve_action_default_of_button_neg (st : AppState) (button : Int)
    (h : button < 0) :
    resolve_action st button = Action.Default :=
  resolve_action_of_key_none st button (button_key_none_of_neg button h)

/-- C10 witness: in the Scenario A state, button -1 resolves to
`Default`. -/
theorem resolve_action_default_of_button_neg_witness :
    (-1 : Int) < 0 ∧ resolve_action stateA (-1) = Action.Default :=
  ⟨by omega, resolve_action_default_of_button_neg stateA (-1) (by omega)⟩

/-- C2: for every state, event type and event, the tap callback forwards
the original event unchanged (posting nothing) exactly when the resolved
action is `Default`; for a non-`Default` action it returns no event, and
in particular every up transition of a non-`Default` action is
suppressed. -/
theorem tap_callback_forward_iff_default
    (st : AppState) (event_type : EventType) (event : CGEvent) :
    (resolve_action st event.button = Action.Default →
      tap_callback st event_type event = (some event, [])) ∧
    (resolve_action st event.button ≠ Action.Default →
      (tap_callback st event_type event).1 = none) := by
  constructor
  · intro h
    simp [tap_callback, h]
  · intro h
    by_cases hd : event_type.isDown = true
    · simp [tap_callback, h, hd]
    · simp [tap_callback, h, hd]

/-- C2 witness: with no device selected a button-0 down event is forwarded
unchanged; in Scenario A the button-1 up event is suppressed. -/
theorem tap_callback_forward_iff_default_witness :
    tap_callback state0 EventType.LeftMouseDown event0 = (some event0, []) ∧
    (tap_callback stateA EventType.RightMouseUp eventA).1 = none :=
  ⟨(tap_callback_forward_iff_default state0 EventType.LeftMouseDown event0).1 rfl,
   (tap_callback_forward_iff_default stateA EventType.RightMouseUp eventA).2
     (by decide)⟩

/-- C5: the action-string mapping is total: each of the six canonical
strings maps to its variant and back, every string that is none of the six
canonical strings maps to `Default`, and string-to-action-to-string is
idempotent under repeated application. -/
theorem action_string_round_trip :
    (∀ a : Action, Action.fromString a.canonicalString = a) ∧
    (∀ s : String, (∀ a : Action, s ≠ a.canonicalString) →
      Action.fromString s = Action.Default) ∧
    (∀ s : String,
      (Action.fromString ((Action.fromString s).canonicalString)).canonicalString =
        (Action.fromString s).canonicalString) := by
  have canon : ∀ a : Action, Action.fromString a.canonicalString = a := by
    intro a
    cases a <;> rfl
  refine ⟨canon, ?_, ?_⟩
  · intro s h
    have h1 := h Action.Disabled
    have h2 := h Action.Back
    have h3 := h Action.Forward
    have h4 := h Action.MiddleClick
    have h5 := h Action.DoubleClick
    simp only [Action.canonicalString] at h1 h2 h3 h4 h5
    unfold Action.fromString
    rw [if_neg h1, if_neg h2, if_neg h3, if_neg h4, if_neg h5]
  · intro s
    rw [canon (Action.fromString s)]

/-- C5 witness: the unrecognized string "bogus" maps to `Default`. -/
theorem action_string_round_trip_witness :
    Action.fromString "bogus" = Action.Default :=
  action_string_round_trip.2.1 "bogus" (by intro a; cases a <;> decide)

/-- C6: in Scenario A (device "04f2:0112:ABC" selected, present in the
registry, right slot mapped to "Back"), button 1 resolves to `Back`, and a
button-1 down event is suppressed while exactly one back-navigation chord
(command plus keycode 0x21, down then up) is synthesized. -/
theorem scenario_a_back_remap :
    resolve_action stateA 1 = Action.Back ∧
    tap_callback stateA EventType.RightMouseDown eventA =
      (none, [Posted.keyDown KEYCODE_LEFT_BRACKET,
              Posted.keyUp KEYCODE_LEFT_BRACKET]) := by
  constructor <;> rfl

/-- C7 counterexample: when the settings file exists but its contents do
not parse, `load_settings` returns the parse error, not the default
settings: the claim that corrupt data yields `Ok(Settings::default())`
fails. -/
theorem load_settings_corrupt_returns_error :
    load_settings true "not json"
        (fun _ => Except.error "expected value at line 1 column 1") =
      Except.error "expected value at line 1 column 1" ∧
    load_settings true "not json"
        (fun _ => Except.error "expected value at line 1 column 1") ≠
      Except.ok Settings.defaultValue := by
  constructor
  · rfl
  · intro h
    exact Except.noConfusion h

/-- C7 amended: a missing settings file yields the default settings, but
with an existing file `load_settings` returns the parse result as is: a
parse error is propagated as `Err`, never replaced by the default. -/
theorem load_settings_missing_defaults
    (data : String) (parse : String → Except String Settings) :
    load_settings false data parse = Except.ok Settings.defaultValue ∧
    (∀ e : String, parse data = Except.error e →
      load_settings true data parse = Except.error e) := by
  constructor
  · rfl
  · intro e h
    simp [load_settings, h]

/-- C7 amended witness: at a concrete file content and parse outcome, the
missing-file case yields the default and the corrupt case the error. -/
theorem load_settings_missing_defaults_witness :
    load_settings false "ignored" (fun _ => Except.error "bad") =
      Except.ok Settings.defaultValue ∧
    load_settings true "ignored" (fun _ => Except.error "bad") =
      Except.error "bad" :=
  ⟨(load_settings_missing_defaults "ignored" (fun _ => Except.error "bad")).1,
   (load_settings_missing_defaults "ignored" (fun _ => Except.error "bad")).2
     "bad" rfl⟩

/-- C8: poisoned locks degrade instead of failing: a poisoned settings
mutex makes `snapshot_settings` return the default settings, and a
poisoned registry mutex makes `is_selected_device_available` return
`false`; both remain total functions. -/
theorem poisoned_locks_degrade (st : AppState) (device_id : String) :
    (st.settings.poisoned = true →
      st.snapshot_settings = Settings.defaultValue) ∧
    (st.devices.poisoned = true →
      st.is_selected_device_available device_id = false) := by
  constructor
  · intro h
    simp [AppState.snapshot_settings, MutexCell.lock, h]
  · intro h
    simp [AppState.is_selected_device_available, MutexCell.lock, h]

/-- C8 witness: on a state with both mutexes poisoned, the settings
snapshot is the default and the configured device reads as unavailable. -/
theorem poisoned_locks_degrade_witness :
    statePoisoned.snapshot_settings = Settings.defaultValue ∧
    statePoisoned.is_selected_device_available "04f2:0112:ABC" = false :=
  ⟨(poisoned_locks_degrade statePoisoned "04f2:0112:ABC").1 rfl,
   (poisoned_locks_degrade statePoisoned "04f2:0112:ABC").2 rfl⟩

/-- C9: `save_settings` persists before updating the in-memory store: when
persisting fails it returns that error and leaves the state untouched. -/
theorem save_settings_error_leaves_state
    (persist : Settings → Except String Unit) (st : AppState)
    (s : Settings) (e : String) (h : persist s = Except.error e) :
    save_settings persist st s = (Except.error e, st) := by
  simp [save_settings, h]

/-- C9 witness: with a persist function that always fails, saving new
settings over `stateA` reports the failure and keeps `stateA`. -/
theorem save_settings_error_leaves_state_witness :
    save_settings (fun _ => Except.error "disk full") stateA
        Settings.defaultValue =
      (Except.error "disk full", stateA) :=
  save_settings_error_leaves_state (fun _ => Except.error "disk full")
    stateA Settings.defaultValue "disk full" rfl

end EditMouse
